import Mathlib

/-!
Verification of the familytree repository layer (Go) against its
natural-language specification, via a shallow embedding in Lean 4.

Conventions of the embedding:
* `time.Time` is modelled as `Nat`; the Go zero time (`IsZero`) is `0`.
* A Go slice `[]T` is `GoSlice T := Option (List T)`: `none` is Go's nil
  slice (length 0, JSON-marshals to `null`), `some l` a non-nil slice.
* Store interactions (ArangoDB driver calls) are modelled either by an
  explicit response parameter (`StoreResult`) injected into the operation,
  or by a concrete in-memory `Collection` state for round-trip claims.
* `strings.TrimSpace` is modelled by the structural function `TrimSpace`
  below (both strip leading and trailing whitespace).
-/

namespace FamilyTree

/-- A Go slice: `none` is the nil slice, `some l` a non-nil slice with
elements `l`.  The distinction matters because a nil slice JSON-marshals
to `null` while a non-nil empty slice marshals to `[]`. -/
def GoSlice (α : Type) : Type := Option (List α)

/-- Go `append(s, x)`: appending to any slice, the nil slice included,
yields a non-nil slice. -/
def GoSlice.push {α : Type} (s : GoSlice α) (x : α) : GoSlice α :=
  some (s.getD [] ++ [x])

/-- The elements of a slice; the nil slice reads as empty. -/
def GoSlice.toList {α : Type} (s : GoSlice α) : List α := s.getD []

/-- Whether a slice is Go's nil slice (`s == nil`). -/
def GoSlice.isNil {α : Type} : GoSlice α → Bool
  | none => true
  | some _ => false

/-- The identity metadata triple assigned by the store
(`arangodb.DocumentMeta`: `_key`, `_id`, `_rev`). -/
structure DocumentMeta where
  key : String
  id : String
  rev : String
deriving Repr, DecidableEq

/-- Outcome of a single store (ArangoDB driver) call: success, a
not-found error (`shared.IsNotFound` holds), or any other failure. -/
inductive StoreResult (α : Type) where
  | ok (val : α)
  | notFound (msg : String)
  | failed (msg : String)
deriving Repr, DecidableEq

/-- `interfaces.Person` (src/unnamed/part_004): a vertex document. -/
structure Person where
  Key : String := ""
  ID : String := ""
  Rev : String := ""
  FirstName : String := ""
  LastName : String := ""
  BirthDate : Nat := 0
  DeathDate : Nat := 0
  Gender : String := ""
  Email : String := ""
  Phone : String := ""
  CreatedAt : Nat := 0
  UpdatedAt : Nat := 0
deriving Repr, DecidableEq

/-- `Person.SetMetadata` (src/unnamed/part_004). -/
def Person.SetMetadata (p : Person) (key id rev : String) : Person :=
  { p with Key := key, ID := id, Rev := rev }

/-- `Person.SetTimestamps` (src/unnamed/part_004): `CreatedAt` is written
only when it is currently the zero time; `UpdatedAt` is always written. -/
def Person.SetTimestamps (p : Person) (createdAt updatedAt : Nat) : Person :=
  if p.CreatedAt = 0 then { p with CreatedAt := createdAt, UpdatedAt := updatedAt }
  else { p with UpdatedAt := updatedAt }

/-- `Person.GetUpdatedAt` (src/unnamed/part_004). -/
def Person.GetUpdatedAt (p : Person) : Nat := p.UpdatedAt

/-- `interfaces.Relationship` (src/unnamed/part_004): an edge document. -/
structure Relationship where
  Key : String := ""
  ID : String := ""
  Rev : String := ""
  From : String := ""
  To : String := ""
  RelationType : String := ""
  StartDate : Nat := 0
  EndDate : Nat := 0
  Notes : String := ""
  CreatedAt : Nat := 0
  UpdatedAt : Nat := 0
deriving Repr, DecidableEq

/-- `Relationship.SetMetadata` (src/unnamed/part_004). -/
def Relationship.SetMetadata (r : Relationship) (key id rev : String) : Relationship :=
  { r with Key := key, ID := id, Rev := rev }

/-- `Relationship.SetTimestamps` (src/unnamed/part_004): same zero-guard
discipline as `Person.SetTimestamps`. -/
def Relationship.SetTimestamps (r : Relationship) (createdAt updatedAt : Nat) : Relationship :=
  if r.CreatedAt = 0 then { r with CreatedAt := createdAt, UpdatedAt := updatedAt }
  else { r with UpdatedAt := updatedAt }

/-- `Relationship.GetUpdatedAt` (src/unnamed/part_004). -/
def Relationship.GetUpdatedAt (r : Relationship) : Nat := r.UpdatedAt

/-- The `Entity` capability contract of the generic repository
(base_repository.go lines 13-17). -/
class Entity (T : Type) where
  SetMetadata : T → String → String → String → T
  SetTimestamps : T → Nat → Nat → T
  GetUpdatedAt : T → Nat

instance PersonEntity : Entity Person where
  SetMetadata := Person.SetMetadata
  SetTimestamps := Person.SetTimestamps
  GetUpdatedAt := Person.GetUpdatedAt

instance RelationshipEntity : Entity Relationship where
  SetMetadata := Relationship.SetMetadata
  SetTimestamps := Relationship.SetTimestamps
  GetUpdatedAt := Relationship.GetUpdatedAt

@[simp] theorem Entity.SetMetadata_person (p : Person) (k i r : String) :
    Entity.SetMetadata p k i r = Person.SetMetadata p k i r := rfl

@[simp] theorem Entity.SetTimestamps_person (p : Person) (a b : Nat) :
    Entity.SetTimestamps p a b = Person.SetTimestamps p a b := rfl

@[simp] theorem Entity.GetUpdatedAt_person (p : Person) :
    Entity.GetUpdatedAt p = p.UpdatedAt := rfl

@[simp] theorem Entity.SetMetadata_rel (x : Relationship) (k i r : String) :
    Entity.SetMetadata x k i r = Relationship.SetMetadata x k i r := rfl

@[simp] theorem Entity.SetTimestamps_rel (x : Relationship) (a b : Nat) :
    Entity.SetTimestamps x a b = Relationship.SetTimestamps x a b := rfl

@[simp] theorem Entity.GetUpdatedAt_rel (x : Relationship) :
    Entity.GetUpdatedAt x = x.UpdatedAt := rfl

/-- `BaseRepository.Create` (base_repository.go lines 43-55).  The store's
reply to `collection.CreateDocument` is the parameter `insertResp`; `now`
is the value of `time.Now()` at the call.  The second component is the
state of the (pointer-passed) entity after the call: timestamps are
stamped before the insert, metadata is written back only on success, and
any insert error is wrapped without a not-found distinction. -/
def BaseRepository.Create {T : Type} [Entity T] (insertResp : StoreResult DocumentMeta)
    (now : Nat) (entity : T) : Except String Unit × T :=
  let stamped := Entity.SetTimestamps entity now now
  match insertResp with
  | .ok meta => (.ok (), Entity.SetMetadata stamped meta.key meta.id meta.rev)
  | .notFound msg => (.error ("failed to create entity: " ++ msg), stamped)
  | .failed msg => (.error ("failed to create entity: " ++ msg), stamped)

/-- `BaseRepository.Update` (base_repository.go lines 75-90).  Timestamps
are stamped before the store call, with the entity's current `UpdatedAt`
passed as the `createdAt` argument; the store reply to
`collection.UpdateDocument` is the parameter `replaceResp`. -/
def BaseRepository.Update {T : Type} [Entity T] (replaceResp : StoreResult DocumentMeta)
    (now : Nat) (entity : T) : Except String Unit × T :=
  let stamped := Entity.SetTimestamps entity (Entity.GetUpdatedAt entity) now
  match replaceResp with
  | .ok meta => (.ok (), Entity.SetMetadata stamped meta.key meta.id meta.rev)
  | .notFound msg => (.error ("entity not found: " ++ msg), stamped)
  | .failed msg => (.error ("failed to update entity: " ++ msg), stamped)

/-- A concrete in-memory model of an ArangoDB collection, used for the
round-trip (Create-then-GetByID) claim.  `docs` lists the stored
documents with their assigned metadata, in insertion order; `nextKey` is
the store's fresh-key counter. -/
structure Collection (T : Type) where
  name : String
  docs : List (DocumentMeta × T)
  nextKey : Nat

/-- Store semantics of `collection.CreateDocument` for a transient
document: the store assigns a fresh identity triple (an opaque non-empty
key, the `<collection>/<key>`-shaped id, and a revision) and appends the
document; the serialized domain fields are stored as given. -/
def Collection.CreateDocument {T : Type} (c : Collection T) (doc : T) :
    DocumentMeta × Collection T :=
  let meta : DocumentMeta :=
    ⟨"k" ++ toString c.nextKey, c.name ++ "/" ++ ("k" ++ toString c.nextKey),
      "_rev" ++ toString c.nextKey⟩
  (meta, { c with docs := c.docs ++ [(meta, doc)], nextKey := c.nextKey + 1 })

/-- Store semantics of `collection.ReadDocument`: look the key up; a miss
is the not-found condition `shared.IsNotFound` recognizes. -/
def Collection.ReadDocument {T : Type} (c : Collection T) (key : String) :
    StoreResult (DocumentMeta × T) :=
  match c.docs.find? (fun d => d.1.key == key) with
  | some d => .ok d
  | none => .notFound "document not found"

/-- `BaseRepository.Create` run against the concrete collection model:
stamp timestamps, insert the stamped document, write the assigned
metadata back onto the entity.  Returns the call result, the entity's
state after the call, and the new collection state. -/
def BaseRepository.CreateInStore {T : Type} [Entity T] (c : Collection T)
    (now : Nat) (entity : T) : (Except String Unit × T) × Collection T :=
  let stamped := Entity.SetTimestamps entity now now
  let (meta, c1) := c.CreateDocument stamped
  (BaseRepository.Create (.ok meta) now entity, c1)

/-- `BaseRepository.GetByID` (base_repository.go lines 58-72) against the
concrete collection model: read the document, distinguish not-found, and
write the read metadata onto the unmarshalled entity. -/
def BaseRepository.GetByID {T : Type} [Entity T] (c : Collection T)
    (id : String) : Except String T :=
  match c.ReadDocument id with
  | .ok (meta, doc) => .ok (Entity.SetMetadata doc meta.key meta.id meta.rev)
  | .notFound msg => .error ("entity not found: " ++ msg)
  | .failed msg => .error ("failed to get entity: " ++ msg)

/-- `BaseRepository.List` (base_repository.go lines 106-127).  `queryResp`
is the store's reply to the full-collection scan: on success the cursor
yields the listed documents in order.  The Go loop starts from
`var entities []T` (the nil slice) and appends each document, so an empty
cursor leaves the nil slice as the result. -/
def BaseRepository.List {T : Type} (queryResp : StoreResult (List T)) :
    Except String (GoSlice T) :=
  match queryResp with
  | .ok docs => .ok (docs.foldl GoSlice.push none)
  | .notFound msg => .error ("failed to query entities: " ++ msg)
  | .failed msg => .error ("failed to query entities: " ++ msg)

/-- The AQL filter of `PersonRepository.FindByName` (src/unnamed/part_006
lines 25-30): `(@firstName == "" || p.firstName == @firstName) AND
(@lastName == "" || p.lastName == @lastName)`. -/
def FindByNameFilter (firstName lastName : String) (p : Person) : Bool :=
  (firstName == "" || p.FirstName == firstName) &&
  (lastName == "" || p.LastName == lastName)

/-- `PersonRepository.FindByName` (src/unnamed/part_006 lines 24-56):
run the parameterized query over the stored persons and accumulate the
cursor's documents with Go `append` starting from the nil slice. -/
def PersonRepository.FindByName (stored : List Person)
    (firstName lastName : String) : GoSlice Person :=
  (stored.filter (FindByNameFilter firstName lastName)).foldl GoSlice.push none

/-- The AQL filter of `RelationshipRepository.FindByPerson`
(src/unnamed/part_006 lines 81-85):
`rel._from == @personID || rel._to == @personID`. -/
def FindByPersonFilter (personID : String) (r : Relationship) : Bool :=
  r.From == personID || r.To == personID

/-- `RelationshipRepository.FindByPerson` (src/unnamed/part_006 lines
80-110): run the parameterized query over the stored relationships and
accumulate the cursor's documents. -/
def RelationshipRepository.FindByPerson (stored : List Relationship)
    (personID : String) : GoSlice Relationship :=
  (stored.filter (FindByPersonFilter personID)).foldl GoSlice.push none

/-- The AQL filter of `RelationshipRepository.FindByType`
(src/unnamed/part_006 lines 114-118): `rel.relationType == @relationType`,
with no empty-string pass-through disjunct. -/
def FindByTypeFilter (relationType : String) (r : Relationship) : Bool :=
  r.RelationType == relationType

/-- `RelationshipRepository.FindByType` (src/unnamed/part_006 lines
113-143). -/
def RelationshipRepository.FindByType (stored : List Relationship)
    (relationType : String) : GoSlice Relationship :=
  (stored.filter (FindByTypeFilter relationType)).foldl GoSlice.push none

/-- Drop leading whitespace characters from a character list. -/
def dropWhileWs : List Char → List Char
  | [] => []
  | c :: cs => if c.isWhitespace then dropWhileWs cs else c :: cs

/-- Go `strings.TrimSpace`: strip leading and trailing whitespace. -/
def TrimSpace (s : String) : String :=
  ⟨(dropWhileWs ((dropWhileWs s.data).reverse)).reverse⟩

/-- `interfaces.RelationshipCreateRequest` (src/unnamed/part_004). -/
structure RelationshipCreateRequest where
  From : String := ""
  To : String := ""
  RelationType : String := ""
  StartDate : Nat := 0
  EndDate : Nat := 0
  Notes : String := ""
deriving Repr, DecidableEq

/-- The closed relation-type set of `validateCreateRequest`
(relationship_service.go lines 171-176): membership in the Go map literal
over the constants parent, child, spouse, sibling. -/
def validTypes (t : String) : Bool :=
  t == "parent" || t == "child" || t == "spouse" || t == "sibling"

/-- `RelationshipService.validateCreateRequest` (relationship_service.go
lines 154-183).  Emptiness checks trim their argument, but the
`from == to` comparison and the type-set lookup use the raw request
strings. -/
def RelationshipService.validateCreateRequest (req : RelationshipCreateRequest) :
    Except String Unit :=
  if TrimSpace req.From == "" then .error "from is required"
  else if TrimSpace req.To == "" then .error "to is required"
  else if TrimSpace req.RelationType == "" then .error "relationType is required"
  else if req.From == req.To then .error "from and to must be different persons"
  else if !validTypes req.RelationType then
    .error ("invalid relationship type: " ++ req.RelationType)
  else .ok ()

/-- `RelationshipService.CreateRelationship` (relationship_service.go
lines 24-46): validate, build the entity from trimmed request fields,
then call the repository.  The second component records the entity handed
to the store (`none` when validation failed and no store call was made). -/
def RelationshipService.CreateRelationship (insertResp : StoreResult DocumentMeta)
    (now : Nat) (req : RelationshipCreateRequest) :
    Except String Relationship × Option Relationship :=
  match RelationshipService.validateCreateRequest req with
  | .error e => (.error e, none)
  | .ok _ =>
    let relationship : Relationship :=
      { From := TrimSpace req.From, To := TrimSpace req.To,
        RelationType := TrimSpace req.RelationType,
        StartDate := req.StartDate, EndDate := req.EndDate,
        Notes := TrimSpace req.Notes }
    match BaseRepository.Create insertResp now relationship with
    | (.error e, _) => (.error ("failed to create relationship: " ++ e), some relationship)
    | (.ok _, rel) => (.ok rel, some relationship)

/-- `RelationshipService.GetRelationshipsByType` (relationship_service.go
lines 140-151): an empty type is rejected before any repository call.
The second component records whether the repository was called. -/
def RelationshipService.GetRelationshipsByType (stored : List Relationship)
    (relationType : String) : Except String (GoSlice Relationship) × Bool :=
  if relationType == "" then (.error "relationship type is required", false)
  else (.ok (RelationshipRepository.FindByType stored relationType), true)

/-- The store replies `Client.ensureCollection` can observe: the answer to
`CollectionExists`, and the answer to `CreateCollectionV2` in case a
create is issued (in the race of interest the collection appeared after
the existence check, so the create comes back with a duplicate-name
failure). -/
structure EnsureCollectionStore where
  existsResp : StoreResult Bool
  createResp : StoreResult Unit
deriving Repr, DecidableEq

/-- `Client.ensureCollection` (src/unnamed/part_001 lines 125-147): check
existence, return nil if the collection exists, otherwise issue the
create and wrap any error it returns.  The second component records
whether the create was issued. -/
def Client.ensureCollection (store : EnsureCollectionStore) :
    Except String Unit × Bool :=
  match store.existsResp with
  | .notFound msg => (.error ("failed to check collection existence: " ++ msg), false)
  | .failed msg => (.error ("failed to check collection existence: " ++ msg), false)
  | .ok true => (.ok (), false)
  | .ok false =>
    match store.createResp with
    | .ok _ => (.ok (), true)
    | .notFound msg => (.error ("failed to create collection: " ++ msg), true)
    | .failed msg => (.error ("failed to create collection: " ++ msg), true)

theorem GoSlice.toList_push {α : Type} (s : GoSlice α) (x : α) :
    (s.push x).toList = s.toList ++ [x] := rfl

theorem GoSlice.toList_foldl_push {α : Type} (l : List α) (s : GoSlice α) :
    (l.foldl GoSlice.push s).toList = s.toList ++ l := by
  induction l generalizing s with
  | nil => simp
  | cons x xs ih =>
    rw [List.foldl_cons, ih, GoSlice.toList_push, List.append_assoc]
    rfl

/-- C5: `FindByPerson(id)` returns exactly the stored relationships in
which `id` occurs as the `from` endpoint or as the `to` endpoint, and
none in which it occurs as neither; the lookup is symmetric in the two
endpoints even though relationships are stored directionally. -/
theorem C5_find_by_person_exact (stored : List Relationship) (personID : String)
    (r : Relationship) :
    r ∈ (RelationshipRepository.FindByPerson stored personID).toList ↔
      r ∈ stored ∧ (r.From = personID ∨ r.To = personID) := by
  unfold RelationshipRepository.FindByPerson
  rw [GoSlice.toList_foldl_push]
  simp [GoSlice.toList, List.mem_filter, FindByPersonFilter]

/-- C6: `FindByName` filters persons by exact match on first and last
name, an empty string argument making that predicate a pass-through:
with both arguments blank every stored person is returned; with only the
last name blank exactly the persons with the given first name are
returned, regardless of last name; and symmetrically. -/
theorem C6_find_by_name_passthrough (stored : List Person)
    (firstName lastName : String) (p : Person) :
    p ∈ (PersonRepository.FindByName stored firstName lastName).toList ↔
      p ∈ stored ∧ (firstName = "" ∨ p.FirstName = firstName) ∧
        (lastName = "" ∨ p.LastName = lastName) := by
  unfold PersonRepository.FindByName
  rw [GoSlice.toList_foldl_push]
  simp [GoSlice.toList, List.mem_filter, FindByNameFilter, and_assoc]

/-- C10: `FindByType` gives the empty string no pass-through meaning —
`FindByType("")` returns exactly the stored relationships whose
`relationType` is the empty string, not all relationships — while the
service's `GetRelationshipsByType` rejects an empty type with an error
before any repository call. -/
theorem C10_find_by_type_no_passthrough :
    (∀ (stored : List Relationship) (r : Relationship),
      r ∈ (RelationshipRepository.FindByType stored "").toList ↔
        r ∈ stored ∧ r.RelationType = "") ∧
    (∀ stored : List Relationship,
      RelationshipService.GetRelationshipsByType stored "" =
        (.error "relationship type is required", false)) := by
  constructor
  · intro stored r
    unfold RelationshipRepository.FindByType
    rw [GoSlice.toList_foldl_push]
    simp [GoSlice.toList, List.mem_filter, FindByTypeFilter]
  · intro stored
    rfl

/-- C7 counterexample: on an empty collection with a successful query,
`List` returns Go's nil slice (the loop appends nothing to
`var entities []T`), i.e. exactly the null/absent sequence value the
claim rules out — a nil slice JSON-marshals to `null`, observably so in
the list handlers' responses. -/
theorem C7_counterexample :
    BaseRepository.List (T := Person) (.ok []) = .ok (none : GoSlice Person) ∧
    GoSlice.isNil (α := Person) none = true :=
  ⟨rfl, rfl⟩

/-- C7 amended: on an empty collection with a successful query, `List`
returns no error and a zero-length slice — but that slice is Go's nil
slice (which serializes as JSON `null`), not a non-nil empty slice. -/
theorem C7_list_empty_nil_slice (α : Type) :
    BaseRepository.List (T := α) (.ok []) = .ok (none : GoSlice α) ∧
    GoSlice.toList (α := α) none = [] ∧
    GoSlice.isNil (α := α) none = true :=
  ⟨rfl, rfl, rfl⟩

/-- C1: for Person and Relationship alike, `createdAt` is set on first
persistence via `Create` (the zero-guard in `SetTimestamps` fires) and is
never overwritten afterwards — both `Create` and `Update` on an entity
with non-zero `createdAt` leave it unchanged — while `Update` stamps
`updatedAt` to the call's `now`, strictly later than the previous value
whenever the clock has advanced. -/
theorem C1_timestamp_discipline (p0 p : Person) (r0 r : Relationship)
    (resp : StoreResult DocumentMeta) (now : Nat)
    (hp0 : p0.CreatedAt = 0) (hp : p.CreatedAt ≠ 0) (hpu : p.UpdatedAt < now)
    (hr0 : r0.CreatedAt = 0) (hr : r.CreatedAt ≠ 0) (hru : r.UpdatedAt < now) :
    (BaseRepository.Create resp now p0).2.CreatedAt = now ∧
    (BaseRepository.Create resp now p).2.CreatedAt = p.CreatedAt ∧
    (BaseRepository.Update resp now p).2.CreatedAt = p.CreatedAt ∧
    p.UpdatedAt < (BaseRepository.Update resp now p).2.UpdatedAt ∧
    (BaseRepository.Create resp now r0).2.CreatedAt = now ∧
    (BaseRepository.Create resp now r).2.CreatedAt = r.CreatedAt ∧
    (BaseRepository.Update resp now r).2.CreatedAt = r.CreatedAt ∧
    r.UpdatedAt < (BaseRepository.Update resp now r).2.UpdatedAt := by
  cases resp <;>
    simp [BaseRepository.Create, BaseRepository.Update,
      Person.SetMetadata, Person.SetTimestamps,
      Relationship.SetMetadata, Relationship.SetTimestamps,
      Person.GetUpdatedAt, Relationship.GetUpdatedAt,
      hp0, hp, hpu, hr0, hr, hru]

theorem C1_timestamp_discipline_witness :
    (BaseRepository.Create (T := Person) (.ok ⟨"1", "persons/1", "r1"⟩) 7
        { FirstName := "Ada", LastName := "Lovelace" }).2.CreatedAt = 7 ∧
    (BaseRepository.Create (T := Person) (.ok ⟨"1", "persons/1", "r1"⟩) 7
        { FirstName := "Ada", LastName := "Lovelace", CreatedAt := 3, UpdatedAt := 4 }).2.CreatedAt = 3 ∧
    (BaseRepository.Update (T := Person) (.ok ⟨"1", "persons/1", "r1"⟩) 7
        { FirstName := "Ada", LastName := "Lovelace", CreatedAt := 3, UpdatedAt := 4 }).2.CreatedAt = 3 ∧
    (4:Nat) < (BaseRepository.Update (T := Person) (.ok ⟨"1", "persons/1", "r1"⟩) 7
        { FirstName := "Ada", LastName := "Lovelace", CreatedAt := 3, UpdatedAt := 4 }).2.UpdatedAt ∧
    (BaseRepository.Create (T := Relationship) (.ok ⟨"1", "persons/1", "r1"⟩) 7
        { From := "persons/1", To := "persons/2", RelationType := "spouse" }).2.CreatedAt = 7 ∧
    (BaseRepository.Create (T := Relationship) (.ok ⟨"1", "persons/1", "r1"⟩) 7
        { From := "persons/1", To := "persons/2", RelationType := "spouse",
          CreatedAt := 3, UpdatedAt := 4 }).2.CreatedAt = 3 ∧
    (BaseRepository.Update (T := Relationship) (.ok ⟨"1", "persons/1", "r1"⟩) 7
        { From := "persons/1", To := "persons/2", RelationType := "spouse",
          CreatedAt := 3, UpdatedAt := 4 }).2.CreatedAt = 3 ∧
    (4:Nat) < (BaseRepository.Update (T := Relationship) (.ok ⟨"1", "persons/1", "r1"⟩) 7
        { From := "persons/1", To := "persons/2", RelationType := "spouse",
          CreatedAt := 3, UpdatedAt := 4 }).2.UpdatedAt :=
  C1_timestamp_discipline
    { FirstName := "Ada", LastName := "Lovelace" }
    { FirstName := "Ada", LastName := "Lovelace", CreatedAt := 3, UpdatedAt := 4 }
    { From := "persons/1", To := "persons/2", RelationType := "spouse" }
    { From := "persons/1", To := "persons/2", RelationType := "spouse",
      CreatedAt := 3, UpdatedAt := 4 }
    (.ok ⟨"1", "persons/1", "r1"⟩) 7
    rfl (by decide) (by decide) rfl (by decide) (by decide)

/-- C2 counterexample: a `Create` whose store insert fails returns a
`PersistenceError` but does NOT leave the entity exactly as it was —
`SetTimestamps` ran before the insert, so the failing call has already
overwritten `createdAt` and `updatedAt` of the transient entity. -/
theorem C2_counterexample :
    (BaseRepository.Create (T := Person) (.failed "connection refused") 5
        { FirstName := "Ada", LastName := "Lovelace" }).1 =
      .error "failed to create entity: connection refused" ∧
    (BaseRepository.Create (T := Person) (.failed "connection refused") 5
        { FirstName := "Ada", LastName := "Lovelace" }).2 ≠
      { FirstName := "Ada", LastName := "Lovelace" } := by
  exact ⟨rfl, by decide⟩

/-- C2 amended: when the store write fails, `Create` and `Update` return
a wrapped error and leave the identity metadata triple and every domain
field unchanged — but the timestamps have already been stamped before
the store call: the failing call leaves the entity with `updatedAt = now`
(and `createdAt` freshly set when it was previously zero), not exactly as
it was before the call. -/
theorem C2_failed_write_effects (p : Person) (x : Relationship)
    (resp : StoreResult DocumentMeta) (now : Nat)
    (hfail : ∀ meta, resp ≠ .ok meta) :
    (∃ e, (BaseRepository.Create resp now p).1 = .error e) ∧
    (BaseRepository.Create resp now p).2 = p.SetTimestamps now now ∧
    (BaseRepository.Create resp now p).2.Key = p.Key ∧
    (BaseRepository.Create resp now p).2.ID = p.ID ∧
    (BaseRepository.Create resp now p).2.Rev = p.Rev ∧
    (BaseRepository.Create resp now p).2.FirstName = p.FirstName ∧
    (BaseRepository.Create resp now p).2.UpdatedAt = now ∧
    (∃ e, (BaseRepository.Update resp now p).1 = .error e) ∧
    (BaseRepository.Update resp now p).2 = p.SetTimestamps p.UpdatedAt now ∧
    (BaseRepository.Update resp now p).2.Key = p.Key ∧
    (BaseRepository.Update resp now p).2.UpdatedAt = now ∧
    (∃ e, (BaseRepository.Create resp now x).1 = .error e) ∧
    (BaseRepository.Create resp now x).2 = x.SetTimestamps now now ∧
    (BaseRepository.Create resp now x).2.Key = x.Key ∧
    (∃ e, (BaseRepository.Update resp now x).1 = .error e) ∧
    (BaseRepository.Update resp now x).2 = x.SetTimestamps x.UpdatedAt now ∧
    (BaseRepository.Update resp now x).2.Key = x.Key := by
  cases resp with
  | ok meta => exact absurd rfl (hfail meta)
  | notFound msg =>
    refine ⟨⟨_, rfl⟩, rfl, ?_, ?_, ?_, ?_, ?_, ⟨_, rfl⟩, rfl, ?_, ?_,
      ⟨_, rfl⟩, rfl, ?_, ⟨_, rfl⟩, rfl, ?_⟩ <;>
      simp [BaseRepository.Create, BaseRepository.Update,
        Person.SetTimestamps, Relationship.SetTimestamps,
        Person.GetUpdatedAt, Relationship.GetUpdatedAt] <;>
      split <;> rfl
  | failed msg =>
    refine ⟨⟨_, rfl⟩, rfl, ?_, ?_, ?_, ?_, ?_, ⟨_, rfl⟩, rfl, ?_, ?_,
      ⟨_, rfl⟩, rfl, ?_, ⟨_, rfl⟩, rfl, ?_⟩ <;>
      simp [BaseRepository.Create, BaseRepository.Update,
        Person.SetTimestamps, Relationship.SetTimestamps,
        Person.GetUpdatedAt, Relationship.GetUpdatedAt] <;>
      split <;> rfl

theorem C2_failed_write_effects_witness :
    ∃ e, (BaseRepository.Create (T := Person) (.failed "boom") 5
        { FirstName := "Ada", LastName := "Lovelace" }).1 = .error e :=
  (C2_failed_write_effects
    { FirstName := "Ada", LastName := "Lovelace" }
    { From := "persons/1", To := "persons/2", RelationType := "spouse" }
    (.failed "boom") 5 (fun _ h => by cases h)).1

/-- C4: a relationship-create request whose `from` equals its `to`, or
whose `relationType` lies outside the closed set {parent, child, spouse,
sibling}, makes `CreateRelationship` fail with a validation error before
any store interaction — no entity is handed to the store. -/
theorem C4_validation_before_store (insertResp : StoreResult DocumentMeta)
    (now : Nat) (req : RelationshipCreateRequest)
    (h : req.From = req.To ∨ validTypes req.RelationType = false) :
    ∃ msg, RelationshipService.CreateRelationship insertResp now req =
      (.error msg, none) := by
  unfold RelationshipService.CreateRelationship
    RelationshipService.validateCreateRequest
  rcases h with h | h
  · split_ifs with h1 h2 h3 h4 h5 <;>
      first
        | exact ⟨_, rfl⟩
        | exact absurd (show (req.From == req.To) = true by rw [beq_iff_eq]; exact h) h4
  · split_ifs with h1 h2 h3 h4 h5 <;>
      first
        | exact ⟨_, rfl⟩
        | exact absurd (show (!validTypes req.RelationType) = true by rw [h]; rfl) h5

theorem C4_validation_before_store_witness :
    (∃ msg, RelationshipService.CreateRelationship
      (.ok ⟨"9", "relationships/9", "r9"⟩) 7
      { From := "persons/1", To := "persons/1", RelationType := "spouse" } =
        (.error msg, none)) ∧
    (∃ msg, RelationshipService.CreateRelationship
      (.ok ⟨"9", "relationships/9", "r9"⟩) 7
      { From := "persons/1", To := "persons/2", RelationType := "mentor" } =
        (.error msg, none)) :=
  ⟨C4_validation_before_store (.ok ⟨"9", "relationships/9", "r9"⟩) 7
      { From := "persons/1", To := "persons/1", RelationType := "spouse" }
      (Or.inl rfl),
   C4_validation_before_store (.ok ⟨"9", "relationships/9", "r9"⟩) 7
      { From := "persons/1", To := "persons/2", RelationType := "mentor" }
      (Or.inr (by decide))⟩

/-- C9: the `from == to` validation compares the raw request strings, but
the persisted entity carries whitespace-trimmed values: a request whose
`From` and `To` differ raw yet agree after trimming (with a valid type)
passes validation, and the relationship handed to the store has equal
`from` and `to` endpoints. -/
theorem C9_trim_bypasses_endpoint_check (insertResp : StoreResult DocumentMeta)
    (now : Nat) (req : RelationshipCreateRequest)
    (hraw : req.From ≠ req.To) (htrim : TrimSpace req.From = TrimSpace req.To)
    (hne : TrimSpace req.From ≠ "") (hty : validTypes req.RelationType = true) :
    RelationshipService.validateCreateRequest req = .ok () ∧
    ∃ rel : Relationship,
      (RelationshipService.CreateRelationship insertResp now req).2 = some rel ∧
      rel.From = rel.To := by
  have htyeq : ((req.RelationType = "parent" ∨ req.RelationType = "child") ∨
      req.RelationType = "spouse") ∨ req.RelationType = "sibling" := by
    simpa [validTypes] using hty
  have htytrim : TrimSpace req.RelationType ≠ "" := by
    rcases htyeq with ((h | h) | h) | h <;> rw [h] <;> decide
  have hval : RelationshipService.validateCreateRequest req = .ok () := by
    unfold RelationshipService.validateCreateRequest
    rw [if_neg (by simpa using hne), if_neg (by simpa using (htrim ▸ hne)),
      if_neg (by simpa using htytrim), if_neg (by simpa using hraw),
      if_neg (by simp [hty])]
  refine ⟨hval, ?_⟩
  unfold RelationshipService.CreateRelationship
  rw [hval]
  cases insertResp <;>
    exact ⟨_, rfl, htrim⟩

theorem C9_trim_bypasses_endpoint_check_witness :
    RelationshipService.validateCreateRequest
      { From := " persons/1", To := "persons/1 ", RelationType := "parent" } = .ok () ∧
    ∃ rel : Relationship,
      (RelationshipService.CreateRelationship (.ok ⟨"9", "relationships/9", "r9"⟩) 7
        { From := " persons/1", To := "persons/1 ", RelationType := "parent" }).2 =
          some rel ∧
      rel.From = rel.To :=
  C9_trim_bypasses_endpoint_check (.ok ⟨"9", "relationships/9", "r9"⟩) 7
    { From := " persons/1", To := "persons/1 ", RelationType := "parent" }
    (by decide) (by decide) (by decide) (by decide)

/-- C8 counterexample: in the execution where the existence check reports
the collection absent but it comes to exist before the create lands (the
store's create replies with a duplicate-name failure), `ensureCollection`
wraps and returns that error instead of tolerating the benign race. -/
theorem C8_counterexample :
    Client.ensureCollection ⟨.ok false, .failed "duplicate name"⟩ =
      (.error "failed to create collection: duplicate name", true) := rfl

/-- C8 amended: `ensureCollection` is idempotent in the sequential sense —
when the existence check reports the collection already exists it returns
success without issuing a create — but it is not race-tolerant: whenever
the collection comes to exist between the existence check and the create
request, the create's failure is wrapped and returned as an error. -/
theorem C8_ensure_collection_amended (store : EnsureCollectionStore)
    (msg : String) :
    (store.existsResp = .ok true →
      Client.ensureCollection store = (.ok (), false)) ∧
    (store.existsResp = .ok false → store.createResp = .failed msg →
      Client.ensureCollection store =
        (.error ("failed to create collection: " ++ msg), true)) := by
  constructor
  · intro h
    unfold Client.ensureCollection
    rw [h]
  · intro h1 h2
    unfold Client.ensureCollection
    rw [h1, h2]

theorem C8_ensure_collection_amended_witness :
    (Client.ensureCollection ⟨.ok true, .ok ()⟩ = (.ok (), false)) ∧
    (Client.ensureCollection ⟨.ok false, .failed "conflict"⟩ =
      (.error ("failed to create collection: " ++ "conflict"), true)) :=
  ⟨(C8_ensure_collection_amended ⟨.ok true, .ok ()⟩ "conflict").1 rfl,
   (C8_ensure_collection_amended ⟨.ok false, .failed "conflict"⟩ "conflict").2 rfl rfl⟩

theorem ne_empty_of_pos_length (s : String) (h : 0 < s.length) : s ≠ "" := by
  intro he
  rw [he] at h
  simp at h

/-- C3: for a valid transient entity (no identity yet, zero `createdAt`),
a successful `Create` followed by `GetByID` on the key `Create` wrote
back yields an entity equal to the input in every domain field, with the
identity metadata triple now populated (non-empty and matching the triple
`Create` returned) and `createdAt` equal to `updatedAt`. -/
theorem C3_create_then_get_roundtrip (c : Collection Person) (p : Person) (now : Nat)
    (hfresh : ∀ d ∈ c.docs, d.1.key ≠ "k" ++ toString c.nextKey)
    (htransient : p.CreatedAt = 0) :
    (BaseRepository.CreateInStore c now p).1.1 = .ok () ∧
    ∃ q : Person,
      BaseRepository.GetByID (BaseRepository.CreateInStore c now p).2
        (BaseRepository.CreateInStore c now p).1.2.Key = .ok q ∧
      q.FirstName = p.FirstName ∧ q.LastName = p.LastName ∧
      q.BirthDate = p.BirthDate ∧ q.DeathDate = p.DeathDate ∧
      q.Gender = p.Gender ∧ q.Email = p.Email ∧ q.Phone = p.Phone ∧
      q.CreatedAt = q.UpdatedAt ∧
      q.Key = (BaseRepository.CreateInStore c now p).1.2.Key ∧
      q.ID = (BaseRepository.CreateInStore c now p).1.2.ID ∧
      q.Rev = (BaseRepository.CreateInStore c now p).1.2.Rev ∧
      q.Key ≠ "" ∧ q.ID ≠ "" ∧ q.Rev ≠ "" := by
  have hnone : c.docs.find? (fun d => d.1.key == "k" ++ toString c.nextKey) = none := by
    rw [List.find?_eq_none]
    intro d hd
    simpa using hfresh d hd
  refine ⟨rfl,
    Person.SetMetadata (Person.SetTimestamps p now now)
      ("k" ++ toString c.nextKey)
      (c.name ++ "/" ++ ("k" ++ toString c.nextKey))
      ("_rev" ++ toString c.nextKey),
    ?_, ?_, ?_, ?_, ?_, ?_, ?_, ?_, ?_, rfl, rfl, rfl, ?_, ?_, ?_⟩
  · simp only [BaseRepository.CreateInStore, Collection.CreateDocument,
      BaseRepository.Create, BaseRepository.GetByID, Collection.ReadDocument,
      Entity.SetMetadata_person, Entity.SetTimestamps_person, Person.SetMetadata]
    rw [List.find?_append, hnone]
    simp
  · simp [Person.SetMetadata, Person.SetTimestamps, htransient]
  · simp [Person.SetMetadata, Person.SetTimestamps, htransient]
  · simp [Person.SetMetadata, Person.SetTimestamps, htransient]
  · simp [Person.SetMetadata, Person.SetTimestamps, htransient]
  · simp [Person.SetMetadata, Person.SetTimestamps, htransient]
  · simp [Person.SetMetadata, Person.SetTimestamps, htransient]
  · simp [Person.SetMetadata, Person.SetTimestamps, htransient]
  · simp [Person.SetMetadata, Person.SetTimestamps, htransient]
  · apply ne_empty_of_pos_length
    simp [Person.SetMetadata, String.length_append]
    exact Or.inl (by decide)
  · apply ne_empty_of_pos_length
    simp [Person.SetMetadata, String.length_append]
    exact Or.inl (Or.inr (by decide))
  · apply ne_empty_of_pos_length
    simp [Person.SetMetadata, String.length_append]
    exact Or.inl (by decide)

theorem C3_create_then_get_roundtrip_witness :
    (BaseRepository.CreateInStore (⟨"persons", [], 0⟩ : Collection Person) 7
      { FirstName := "Ada", LastName := "Lovelace" }).1.1 = .ok () ∧
    ∃ q : Person,
      BaseRepository.GetByID
        (BaseRepository.CreateInStore (⟨"persons", [], 0⟩ : Collection Person) 7
          { FirstName := "Ada", LastName := "Lovelace" }).2
        (BaseRepository.CreateInStore (⟨"persons", [], 0⟩ : Collection Person) 7
          { FirstName := "Ada", LastName := "Lovelace" }).1.2.Key = .ok q ∧
      q.FirstName = "Ada" ∧ q.LastName = "Lovelace" ∧
      q.BirthDate = 0 ∧ q.DeathDate = 0 ∧
      q.Gender = "" ∧ q.Email = "" ∧ q.Phone = "" ∧
      q.CreatedAt = q.UpdatedAt ∧
      q.Key = (BaseRepository.CreateInStore (⟨"persons", [], 0⟩ : Collection Person) 7
          { FirstName := "Ada", LastName := "Lovelace" }).1.2.Key ∧
      q.ID = (BaseRepository.CreateInStore (⟨"persons", [], 0⟩ : Collection Person) 7
          { FirstName := "Ada", LastName := "Lovelace" }).1.2.ID ∧
      q.Rev = (BaseRepository.CreateInStore (⟨"persons", [], 0⟩ : Collection Person) 7
          { FirstName := "Ada", LastName := "Lovelace" }).1.2.Rev ∧
      q.Key ≠ "" ∧ q.ID ≠ "" ∧ q.Rev ≠ "" :=
  C3_create_then_get_roundtrip ⟨"persons", [], 0⟩
    { FirstName := "Ada", LastName := "Lovelace" } 7 (by simp) rfl

end FamilyTree
